import Mathlib

/-!
Verification development for the gh-agent-aci repository (src/app.py and
src/my_agent.py): a shallow embedding of the client-side event-stream decoder,
the server-side bounded token acquirer, the authorization-URL capture channel,
the GitHub data fetch, and the orchestrator entrypoint, together with theorems
settling the frozen claims about them.

Conventions of the embedding:
  * Python strings are Lean `String`s (byte payloads are modelled after UTF-8
    decoding).
  * Python values produced by `json.loads` are modelled by the inductive `Json`
    (dict ↦ `Json.obj` as an insertion-ordered association list, list ↦
    `Json.arr`, `None` ↦ `Json.null`).  JSON numbers are modelled as integers;
    float forms (`1.5`, `1e3`) and `\uXXXX` string escapes are outside the
    model and are never used by any theorem below.
  * Python code that can raise is modelled in `Except PyExn`; an uncaught
    exception is the `.error` case.
-/

/-- Python `str.strip` whitespace (the ASCII part; inputs below are ASCII). -/
def pyIsSpace (c : Char) : Bool :=
  c = ' ' || c = '\t' || c = '\n' || c = '\r' || c = '\x0b' || c = '\x0c'

/-- JSON whitespace accepted by Python `json.loads` between tokens. -/
def jsonWs (c : Char) : Bool :=
  c = ' ' || c = '\t' || c = '\n' || c = '\r'

/-- The double-quote character. -/
def quoteChar : Char := Char.ofNat 34

/-- The single-quote character. -/
def squoteChar : Char := Char.ofNat 39

/-- The backslash character. -/
def backslashChar : Char := Char.ofNat 92

/-- A one-character string holding a single quote (used by Python `repr`). -/
def sqStr : String := String.mk [squoteChar]

/-- `listHasPfx hay needle` : `needle` is a prefix of `hay`. -/
def listHasPfx : List Char → List Char → Bool
  | _, [] => true
  | [], _ :: _ => false
  | c :: cs, d :: ds => c = d && listHasPfx cs ds

/-- `listHasSub hay needle` : `needle` occurs contiguously inside `hay`. -/
def listHasSub : List Char → List Char → Bool
  | [], needle => needle.isEmpty
  | c :: t, needle => listHasPfx (c :: t) needle || listHasSub t needle

/-- Python values as returned by `json.loads` (and `None`/bool/int/str/list/dict
values generally).  Objects keep fields in parse order. -/
inductive Json where
  | null
  | bool (b : Bool)
  | num (n : Int)
  | str (s : String)
  | arr (elems : List Json)
  | obj (fields : List (String × Json))

mutual

/-- Structural equality test on `Json` (Python `==` on these values, except that
Python's numeric cross-type equalities like `True == 1` are not modelled). -/
def jsonBeq : Json → Json → Bool
  | .null, .null => true
  | .bool a, .bool b => a = b
  | .num a, .num b => a = b
  | .str a, .str b => a = b
  | .arr xs, .arr ys => jsonBeqList xs ys
  | .obj xs, .obj ys => jsonBeqFields xs ys
  | _, _ => false

/-- Elementwise `jsonBeq` on lists. -/
def jsonBeqList : List Json → List Json → Bool
  | [], [] => true
  | x :: xs, y :: ys => jsonBeq x y && jsonBeqList xs ys
  | _, _ => false

/-- Elementwise `jsonBeq` on field lists. -/
def jsonBeqFields : List (String × Json) → List (String × Json) → Bool
  | [], [] => true
  | (k, v) :: xs, (k', v') :: ys => k = k' && jsonBeq v v' && jsonBeqFields xs ys
  | _, _ => false

end

/-- Drop leading JSON whitespace. -/
def skipWs (cs : List Char) : List Char := cs.dropWhile jsonWs

/-- Parse the body of a JSON string literal (opening quote already consumed).
Returns the decoded string and the remaining input.  The `\uXXXX` escape is not
modelled (the parser rejects it); no input used below contains it. -/
def parseStringLit : Nat → List Char → List Char → Option (String × List Char)
  | 0, _, _ => none
  | _, [], _ => none
  | fuel + 1, c :: rest, acc =>
    if c = quoteChar then some (String.mk acc.reverse, rest)
    else if c = backslashChar then
      match rest with
      | [] => none
      | e :: rest2 =>
        let esc : Option Char :=
          if e = quoteChar then some quoteChar
          else if e = backslashChar then some backslashChar
          else if e = '/' then some '/'
          else if e = 'n' then some '\n'
          else if e = 't' then some '\t'
          else if e = 'r' then some '\r'
          else if e = 'b' then some (Char.ofNat 8)
          else if e = 'f' then some (Char.ofNat 12)
          else none
        match esc with
        | some ec => parseStringLit fuel rest2 (ec :: acc)
        | none => none
    else parseStringLit fuel rest (c :: acc)

/-- Decimal digits to a natural number. -/
def digitsToNat (ds : List Char) : Nat :=
  ds.foldl (fun a c => a * 10 + (c.toNat - 48)) 0

/-- Parse a nonempty run of decimal digits. -/
def parseDigits (cs : List Char) : Option (Nat × List Char) :=
  let ds := cs.takeWhile Char.isDigit
  if ds.isEmpty then none else some (digitsToNat ds, cs.drop ds.length)

/-- Parse a JSON integer (optional leading minus). -/
def parseNum (cs : List Char) : Option (Int × List Char) :=
  match cs with
  | '-' :: rest => (parseDigits rest).map (fun p => (-(p.1 : Int), p.2))
  | _ => (parseDigits cs).map (fun p => ((p.1 : Int), p.2))

mutual

/-- Recursive-descent JSON value parser (fuel-indexed; `json_loads` supplies
ample fuel).  Mirrors Python `json.loads` on the integer fragment of JSON. -/
def parseVal : Nat → List Char → Option (Json × List Char)
  | 0, _ => none
  | fuel + 1, cs0 =>
    let cs := skipWs cs0
    match cs with
    | [] => none
    | c :: rest =>
      if c = quoteChar then
        (parseStringLit (rest.length + 1) rest []).map (fun p => (Json.str p.1, p.2))
      else if c = '[' then
        match skipWs rest with
        | ']' :: r2 => some (Json.arr [], r2)
        | _ => parseElems fuel rest []
      else if c = '\x7b' then
        match skipWs rest with
        | '\x7d' :: r2 => some (Json.obj [], r2)
        | _ => parseMembers fuel rest []
      else if listHasPfx cs "true".toList then some (Json.bool true, cs.drop 4)
      else if listHasPfx cs "false".toList then some (Json.bool false, cs.drop 5)
      else if listHasPfx cs "null".toList then some (Json.null, cs.drop 4)
      else (parseNum cs).map (fun p => (Json.num p.1, p.2))

/-- Parse the elements of a nonempty JSON array (after the `[`). -/
def parseElems : Nat → List Char → List Json → Option (Json × List Char)
  | 0, _, _ => none
  | fuel + 1, cs, acc =>
    match parseVal fuel cs with
    | none => none
    | some (v, r) =>
      match skipWs r with
      | ',' :: r2 => parseElems fuel r2 (v :: acc)
      | ']' :: r2 => some (Json.arr (v :: acc).reverse, r2)
      | _ => none

/-- Parse the members of a nonempty JSON object (after the opening brace). -/
def parseMembers : Nat → List Char → List (String × Json) → Option (Json × List Char)
  | 0, _, _ => none
  | fuel + 1, cs, acc =>
    match skipWs cs with
    | c :: r =>
      if c = quoteChar then
        match parseStringLit (r.length + 1) r [] with
        | none => none
        | some (k, r2) =>
          match skipWs r2 with
          | ':' :: r3 =>
            match parseVal fuel r3 with
            | none => none
            | some (v, r4) =>
              match skipWs r4 with
              | ',' :: r5 => parseMembers fuel r5 ((k, v) :: acc)
              | '\x7d' :: r5 => some (Json.obj ((k, v) :: acc).reverse, r5)
              | _ => none
          | _ => none
      else none
    | [] => none

end

/-- Python `json.loads`: parse a whole string as one JSON document; `none`
models a raised `json.JSONDecodeError`. -/
def json_loads (s : String) : Option Json :=
  match parseVal (s.length * 2 + 4) s.toList with
  | some (v, rest) => if (skipWs rest).isEmpty then some v else none
  | none => none

/-- Python truthiness of a value (used by `or` defaults and `if urls:`). -/
def pyBool : Json → Bool
  | .null => false
  | .bool b => b
  | .num n => n != 0
  | .str s => !s.isEmpty
  | .arr xs => !xs.isEmpty
  | .obj kvs => !kvs.isEmpty

mutual

/-- Python `repr` of a value (single-quoted strings; nested containers).
String escaping inside `repr` is not modelled; no theorem below exercises it. -/
def pyRepr : Json → String
  | .null => "None"
  | .bool true => "True"
  | .bool false => "False"
  | .num n => toString n
  | .str s => sqStr ++ s ++ sqStr
  | .arr xs => "[" ++ pyReprList xs ++ "]"
  | .obj kvs => "\x7b" ++ pyReprFields kvs ++ "\x7d"

/-- Comma-separated `repr`s of list elements. -/
def pyReprList : List Json → String
  | [] => ""
  | [x] => pyRepr x
  | x :: y :: rest => pyRepr x ++ ", " ++ pyReprList (y :: rest)

/-- Comma-separated `repr`s of dict items. -/
def pyReprFields : List (String × Json) → String
  | [] => ""
  | [(k, v)] => sqStr ++ k ++ sqStr ++ ": " ++ pyRepr v
  | (k, v) :: kv :: rest =>
    sqStr ++ k ++ sqStr ++ ": " ++ pyRepr v ++ ", " ++ pyReprFields (kv :: rest)

end

/-- Python `str()` of a value, as used inside f-strings. -/
def pyStr : Json → String
  | .str s => s
  | j => pyRepr j

/-- The Python type name of a value, as it appears in an `AttributeError`
message (`json.loads` results are NoneType/bool/int/str/list/dict). -/
def pyTypeName : Json → String
  | .null => "NoneType"
  | .bool _ => "bool"
  | .num _ => "int"
  | .str _ => "str"
  | .arr _ => "list"
  | .obj _ => "dict"

/-- Python `dict.get(k, dflt)` on a dict built by `json.loads`: duplicate JSON
keys overwrite, so the last binding in parse order wins. -/
def pyDictGet (fields : List (String × Json)) (k : String) (dflt : Json) : Json :=
  match (fields.filter (fun kv => kv.fst = k)).getLast? with
  | some kv => kv.snd
  | none => dflt

/-- Python `d[k]` lookup: `none` models a raised `KeyError`. -/
def pyDictItem (fields : List (String × Json)) (k : String) : Option Json :=
  match (fields.filter (fun kv => kv.fst = k)).getLast? with
  | some kv => some kv.snd
  | none => none

/-- Python `str.strip()` (ASCII whitespace; only emptiness is consumed below). -/
def pyStrip (s : String) : String :=
  String.mk (((s.toList.dropWhile pyIsSpace).reverse.dropWhile pyIsSpace).reverse)

/-- Python `repr` of a list of strings (for the f-string `{_get_urls()}`). -/
def pyStrListRepr (urls : List String) : String :=
  "[" ++ String.intercalate ", " (urls.map (fun u => sqStr ++ u ++ sqStr)) ++ "]"

/-- Python exceptions that the embedded code can raise or catch.
`authRequired` is `AuthRequiredException` from src/my_agent.py; the others are
builtin exceptions, carrying what `str(e)` needs. -/
inductive PyExn where
  | authRequired (msg : String)
  | attributeError (typeName : String)
  | keyError (key : String)
  | typeError (typeName : String)
  | jsonDecodeError (doc : String)
  | other (msg : String)

/-- Python `str(e)` for the exceptions above (`AuthRequiredException` carries
its message; `str(KeyError(k))` is the quoted key; the `AttributeError` text is
the one raised by `.get` on a non-dict). -/
def pyExnStr : PyExn → String
  | .authRequired m => m
  | .attributeError t => sqStr ++ t ++ sqStr ++ " object has no attribute " ++ sqStr ++ "get" ++ sqStr
  | .keyError k => sqStr ++ k ++ sqStr
  | .typeError t => "unsupported operand for " ++ sqStr ++ t ++ sqStr
  | .jsonDecodeError d => "Expecting value: " ++ d
  | .other m => m

/-!  ## Event-Stream Decoder (src/app.py, `parse_agent_response`)

One element of the response stream.  In src/app.py each successfully processed
event appends exactly one text fragment to `chunks`:
  * a dict event with a truthy `chunk.bytes` payload appends its UTF-8 decoding
    (`.chunk`);
  * a dict event with a top-level `bytes` key, or a raw bytes event, appends
    its UTF-8 decoding / `str` (`.raw`);
  * any other event appends its `json.dumps` / `str` serialization
    (`.fallback`).
Each variant carries the fragment it contributes. -/
inductive StreamEvent where
  | chunk (s : String)
  | raw (s : String)
  | fallback (s : String)

/-- The text fragment an event contributes to `chunks`. -/
def eventText : StreamEvent → String
  | .chunk s => s
  | .raw s => s
  | .fallback s => s

/-- The tail of `parse_agent_response` after the chunks are concatenated:
`json.loads` then `data.get("result", raw)`; `.get` on a non-dict raises
`AttributeError`, which no `except` clause catches; a parse failure falls back
to the raw text, with empty/whitespace-only text replaced by the marker. -/
def finishRaw (raw : String) : Except PyExn Json :=
  match json_loads raw with
  | some (Json.obj fields) => .ok (pyDictGet fields "result" (.str raw))
  | some j => .error (.attributeError (pyTypeName j))
  | none => .ok (.str (if pyStrip raw ≠ "" then raw else "Empty response."))

/-- `parse_agent_response` on the stream path (the `event_stream is None`
early-return is outside the decoder proper).  `events` is the list of events
the iteration processed; `streamFault` records whether iteration then raised,
in which case `events` is the prefix decoded before the fault.  The fault
itself is swallowed: with no decoded chunks the fixed string
"Stream read error" is returned, otherwise the chunks decoded so far are
processed exactly like a complete stream. -/
def parse_agent_response (events : List StreamEvent) (streamFault : Bool) :
    Except PyExn Json :=
  let chunks := events.map eventText
  if streamFault && chunks.isEmpty then .ok (.str "Stream read error")
  else finishRaw (String.join chunks)

/-!  ## Authorization-URL extraction (src/my_agent.py, `_extract_auth_url`) -/

/-- A character the regex character class excludes: whitespace or a quote. -/
def isStopChar (c : Char) : Bool :=
  pyIsSpace c || c = squoteChar || c = quoteChar

/-- Leftmost match of the first pattern
`https://bedrock-agentcore[^\s'"]+` : the fixed literal followed by at least
one non-stop character, extended greedily. -/
def scanAgentcoreUrl : List Char → Option (List Char)
  | [] => none
  | c :: cs =>
    let lit := "https://bedrock-agentcore".toList
    if listHasPfx (c :: cs) lit then
      let run := ((c :: cs).drop lit.length).takeWhile (fun ch => !isStopChar ch)
      if run.isEmpty then scanAgentcoreUrl cs else some (lit ++ run)
    else scanAgentcoreUrl cs

/-- Leftmost match of the second pattern
`https://[^\s'"]*(?:authorize|oauth)[^\s'"]*` : a greedy match at position `i`
is the maximal non-stop run starting at `i`, provided it starts with
`https://` and contains `authorize` or `oauth` after those eight characters. -/
def scanOauthUrl : List Char → Option (List Char)
  | [] => none
  | c :: cs =>
    if listHasPfx (c :: cs) "https://".toList then
      let run := (c :: cs).takeWhile (fun ch => !isStopChar ch)
      if listHasSub (run.drop 8) "authorize".toList ||
         listHasSub (run.drop 8) "oauth".toList then
        some run
      else scanOauthUrl cs
    else scanOauthUrl cs

/-- `_extract_auth_url`: `None` for falsy (empty) text, else the first
AgentCore authorize URL, else the first URL mentioning authorize/oauth. -/
def _extract_auth_url (text : String) : Option String :=
  if text.isEmpty then none
  else
    match scanAgentcoreUrl text.toList with
    | some m => some (String.mk m)
    | none => (scanOauthUrl text.toList).map String.mk

/-!  ## Authorization Interrupt Channel (src/my_agent.py, `_add_url`)

The channel `_captured_urls` is a list of strings, cleared by `_clear_urls()`
at the start of `_call_github_with_timeout`; `_add_url` appends a URL unless
it is already present.  A run of writes is modelled by folding `_add_url`
over the write sequence starting from the cleared (empty) channel. -/

/-- `_add_url`: append `url` to the channel unless already present. -/
def _add_url (urls : List String) (url : String) : List String :=
  if url ∈ urls then urls else urls ++ [url]

/-!  ## Bounded Token Acquirer (src/my_agent.py, `_call_github_with_timeout`)

The worker thread's eventual queue entry: `("ok", data)` or `("error", e)`. -/
inductive ThreadRes where
  | ok (data : String)
  | err (e : PyExn)

/-- What one iteration of the polling loop observes: the queue entry if the
worker has finished, and the channel contents `_get_urls()` at that moment. -/
structure PollObs where
  queued : Option ThreadRes
  urls : List String

/-- The `AuthRequiredException` message built around an authorization URL
(identical at all four raise sites in src/my_agent.py and in `invoke`). -/
def authMsg (url : String) : String :=
  "🔒 **GitHub Authorization Required**\n\n" ++
  "[Click here to authorize GitHub access](" ++ url ++ ")\n\n" ++
  "After authorizing, come back and retry your command."

/-- The `AuthRequiredException` message raised when the bound elapses with no
URL found anywhere (note: it is still an `AuthRequiredException`).  At that
point the channel has just been checked empty, so `{_get_urls()}` formats the
empty list. -/
def timeoutMsg (stdoutBuf stderrBuf : String) (urls : List String) : String :=
  "⚠️ **Timed out.** Could not find auth URL in stdout, stderr, or logs.\n\n" ++
  "stdout: ```" ++ (if (stdoutBuf.take 300).isEmpty then "EMPTY" else stdoutBuf.take 300) ++ "```\n\n" ++
  "stderr: ```" ++ (if (stderrBuf.take 300).isEmpty then "EMPTY" else stderrBuf.take 300) ++ "```\n\n" ++
  "captured_urls: " ++ pyStrListRepr urls

/-- One iteration of the polling loop: first the queue is checked (success
returns the data; an error is re-raised as `AuthRequiredException` if its text
yields a URL, else re-raised as itself); otherwise a nonempty channel raises
`AuthRequiredException` around `urls[0]`; otherwise the loop continues. -/
def processPoll (o : PollObs) : Option (Except PyExn String) :=
  match o.queued with
  | some (.ok d) => some (.ok d)
  | some (.err e) =>
    match _extract_auth_url (pyExnStr e) with
    | some u => some (.error (.authRequired (authMsg u)))
    | none => some (.error e)
  | none =>
    match o.urls with
    | [] => none
    | u :: _ => some (.error (.authRequired (authMsg u)))

/-- Run the polling iterations in order until one of them settles the call. -/
def runPolls : List PollObs → Option (Except PyExn String)
  | [] => none
  | o :: rest =>
    match processPoll o with
    | some r => some r
    | none => runPolls rest

/-- Number of loop iterations: `elapsed` runs 0, 2, … while
`elapsed < timeout_seconds`, so `⌈timeout_seconds / 2⌉` iterations. -/
def iterCount (timeoutSeconds : Nat) : Nat := (timeoutSeconds + 1) / 2

/-- `_call_github_with_timeout`: clears the channel, starts the worker, polls
`iterCount` times (observation `i` is what iteration `i` sees), then makes the
final channel check; `finalUrls` is `_get_urls()` at that final check and
`stdoutBuf`/`stderrBuf` are the captured buffers.  Every non-`ok` outcome is a
raised exception — including the elapsed-bound case, which raises
`AuthRequiredException` with the timeout message. -/
def _call_github_with_timeout (timeoutSeconds : Nat) (obsAt : Nat → PollObs)
    (finalUrls : List String) (stdoutBuf stderrBuf : String) :
    Except PyExn String :=
  match runPolls ((List.range (iterCount timeoutSeconds)).map obsAt) with
  | some r => r
  | none =>
    match finalUrls with
    | u :: _ => .error (.authRequired (authMsg u))
    | [] => .error (.authRequired (timeoutMsg stdoutBuf stderrBuf []))

/-!  ## Tool Invocation Wrapper (src/my_agent.py, `fetch_github_profile`) -/

/-- The tool body: re-raises `AuthRequiredException` unchanged; any other
exception is absorbed into an ordinary error string; `r` is the outcome of
`_call_github_with_timeout`. -/
def fetch_github_profile (r : Except PyExn String) : Except PyExn String :=
  match r with
  | .ok d => .ok d
  | .error (.authRequired m) => .error (.authRequired m)
  | .error e => .ok ("⚠️ Error: " ++ pyExnStr e)

/-!  ## Session/Turn Orchestrator (src/my_agent.py, `invoke`) -/

/-- The outcome of `graph.invoke` followed by `res["messages"][-1].content`,
treated as an opaque collaborator: either a final assistant text, or a raised
exception (LangGraph is modelled as propagating what the tool raises). -/
inductive GraphOutcome where
  | finished (content : String)
  | raised (e : PyExn)

/-- The entrypoint's dict payload, as far as `invoke` reads it:
`payload.get("type")` and `payload.get("prompt")`. -/
structure Payload where
  type : Option Json
  prompt : Option Json

/-- The `{"result": s}` envelope every `invoke` branch returns. -/
def mkResult (s : String) : Json := .obj [("result", .str s)]

/-- The warmup test `payload.get("type") == "warmup"` (Python `==`). -/
def isWarmupPayload (payload : Payload) : Bool :=
  match payload.type with
  | some t => jsonBeq t (.str "warmup")
  | none => false

/-- `invoke`: the warmup fast path returns the fixed acknowledgement before
the `try` block; otherwise the graph outcome is mapped — final text verbatim,
`AuthRequiredException` to its own message, any other exception to the
auth-required message if its text yields a URL, else to a backend-error
message.  Every branch returns a result envelope; nothing propagates. -/
def invoke (payload : Payload) (g : GraphOutcome) : Json :=
  if isWarmupPayload payload then mkResult "Agent is warm and ready."
  else
    match g with
    | .finished content => mkResult content
    | .raised (.authRequired m) => mkResult m
    | .raised e =>
      let errStr := pyExnStr e
      match _extract_auth_url errStr with
      | some url => mkResult (authMsg url)
      | none => mkResult ("⚠️ Backend Error: " ++ errStr)

/-!  ## Client-side rendering (src/app.py, `render_response`) -/

/-- The sentinel prefix the client checks (`AUTH_PREFIX` in src/app.py). -/
def AUTH_SENTINEL : String := "__AUTH_REQUIRED__"

/-- The pure content of `render_response`: text beginning with the sentinel is
rendered as an authorization link and replaced in the transcript by a fixed
placeholder; anything else is echoed verbatim. -/
def render_response (text : String) : String :=
  if text.startsWith AUTH_SENTINEL then "🔒 Authorization required. [Link provided]"
  else text

/-!  ## GitHub data fetch (src/my_agent.py, `_get_github_data`) -/

/-- An HTTP response as `_get_github_data` consumes it: status code and body
text (`resp.json()` is `json.loads` of the body). -/
structure HttpResp where
  status : Nat
  text : String

/-- `resp.json()`: parse the body, raising `JSONDecodeError` on failure. -/
def respJson (r : HttpResp) : Except PyExn Json :=
  match json_loads r.text with
  | some j => .ok j
  | none => .error (.jsonDecodeError r.text)

/-- The value bound to `repos`:
`repos_resp.json() if repos_resp.status_code == 200 else []` — a non-200
repos response silently becomes the empty list. -/
def reposValue (reposResp : HttpResp) : Except PyExn Json :=
  if reposResp.status = 200 then respJson reposResp else .ok (.arr [])

/-- One line of the repo summary loop body: `r.get` on a non-dict raises
`AttributeError`; `r['name']` on a dict without the key raises `KeyError`. -/
def formatRepoLine (r : Json) : Except PyExn String :=
  match r with
  | .obj fields =>
    let langV := pyDictGet fields "language" .null
    let lang := if pyBool langV then langV else .str "N/A"
    let stars := pyDictGet fields "stargazers_count" (.num 0)
    let descV := pyDictGet fields "description" .null
    let desc := if pyBool descV then descV else .str "No description"
    match pyDictItem fields "name" with
    | some nm =>
      .ok ("  - **" ++ pyStr nm ++ "** (" ++ pyStr lang ++ ", " ++ pyStr stars ++
           " stars): " ++ pyStr desc)
    | none => .error (.keyError "name")
  | j => .error (.attributeError (pyTypeName j))

/-- `lang_count[lang] = lang_count.get(lang, 0) + 1` on a Python dict:
an existing key is bumped in place, a new key is appended (insertion order). -/
def bumpLang (m : List (Json × Int)) (k : Json) : List (Json × Int) :=
  match m with
  | [] => [(k, 1)]
  | (k', c) :: rest =>
    if jsonBeq k' k then (k', c + 1) :: rest else (k', c) :: bumpLang rest k

/-- The second loop: count truthy `language` fields over all repos (`r.get`
again raises `AttributeError` on a non-dict element). -/
def countLangs (repos : List Json) : Except PyExn (List (Json × Int)) :=
  repos.foldlM
    (fun m r =>
      match r with
      | .obj fields =>
        let l := pyDictGet fields "language" .null
        pure (if pyBool l then bumpLang m l else m)
      | j => throw (.attributeError (pyTypeName j)))
    []

/-- Stable insertion for Python `sorted(…, key=lambda x: x[1], reverse=True)`:
an element goes before the first strictly-smaller count, after equal ones. -/
def insertByCountDesc (acc : List (Json × Int)) (x : Json × Int) :
    List (Json × Int) :=
  match acc with
  | [] => [x]
  | y :: ys => if x.2 > y.2 then x :: y :: ys else y :: insertByCountDesc ys x

/-- Python's stable descending sort by count. -/
def sortByCountDesc (m : List (Json × Int)) : List (Json × Int) :=
  m.foldl insertByCountDesc []

/-- The `**Top Languages:**` fragment: top five languages, or `N/A`. -/
def topLangsStr (langCount : List (Json × Int)) : String :=
  let top := (sortByCountDesc langCount).take 5
  if top.isEmpty then "N/A"
  else String.intercalate ", " (top.map (fun lc => pyStr lc.1 ++ " (" ++ toString lc.2 ++ ")"))

/-- Everything `_get_github_data` does after `profile` and `repos` are bound:
the two loops over the repo list, then the summary f-string over the profile
dict (`profile.get` raises `AttributeError` if the parsed profile is not a
dict).  `repos[:10]` on a non-list raises `TypeError`. -/
def githubSummary (profileJson reposVal : Json) : Except PyExn String := do
  let repos ←
    match reposVal with
    | .arr xs => pure xs
    | j => throw (.typeError (pyTypeName j))
  let lines ← (repos.take 10).mapM formatRepoLine
  let langCount ← countLangs repos
  let langStr := topLangsStr langCount
  let profile ←
    match profileJson with
    | .obj fields => pure fields
    | j => throw (.attributeError (pyTypeName j))
  let login := pyDictGet profile "login" .null
  let name := pyDictGet profile "name" (.str "N/A")
  let bioV := pyDictGet profile "bio" .null
  let bio := if pyBool bioV then bioV else .str "N/A"
  let followers := pyDictGet profile "followers" .null
  let following := pyDictGet profile "following" .null
  let publicRepos := pyDictGet profile "public_repos" .null
  return "**GitHub Profile:** " ++ pyStr login ++ " (" ++ pyStr name ++ ")\n" ++
    "**Bio:** " ++ pyStr bio ++ "\n" ++
    "**Followers:** " ++ pyStr followers ++ " | **Following:** " ++ pyStr following ++ "\n" ++
    "**Public Repos:** " ++ pyStr publicRepos ++ "\n" ++
    "**Top Languages:** " ++ langStr ++ "\n\n" ++
    "**Recently Active Repos:**\n" ++ String.intercalate "\n" lines

/-- `_get_github_data` once a token is available, as a function of the two
HTTP responses: a non-200 profile response returns an error *string*; the
profile body is then parsed, the repos value computed per `reposValue`, and
the summary built. -/
def _get_github_data (profileResp reposResp : HttpResp) : Except PyExn String :=
  if profileResp.status ≠ 200 then
    .ok ("Error fetching profile: " ++ profileResp.text)
  else
    match respJson profileResp with
    | .error e => .error e
    | .ok profileJson =>
      match reposValue reposResp with
      | .error e => .error e
      | .ok reposVal => githubSummary profileJson reposVal

/-!  ## Helper lemmas -/

set_option maxRecDepth 8192

/-- The characters of an appended string. -/
theorem strDataAppend (s t : String) : (s ++ t).data = s.data ++ t.data := rfl

/-- The first character of an appended string comes from a nonempty left part. -/
theorem strHeadAppend (s t : String) (c : Char) (h : s.data.head? = some c) :
    (s ++ t).data.head? = some c := by
  rw [strDataAppend]
  cases hs : s.data with
  | nil => rw [hs] at h; simp at h
  | cons a l => rw [hs] at h; simp at h; simp [hs, h]

/-- If no polling iteration settles the call, the loop falls through. -/
theorem runPolls_eq_none (l : List PollObs) (h : ∀ o ∈ l, processPoll o = none) :
    runPolls l = none := by
  induction l with
  | nil => rfl
  | cons o rest ih =>
    unfold runPolls
    rw [h o (List.mem_cons_self o rest)]
    exact ih (fun o' ho' => h o' (List.mem_cons_of_mem o ho'))

/-- If iteration `i` is the first one that settles the call, its result is the
result of the whole polling loop. -/
theorem runPolls_fires (obsAt : Nat → PollObs) (n i : Nat) (hi : i < n)
    (hb : ∀ j, j < i → processPoll (obsAt j) = none)
    (r : Except PyExn String) (hf : processPoll (obsAt i) = some r) :
    runPolls ((List.range n).map obsAt) = some r := by
  induction i generalizing obsAt n with
  | zero =>
    obtain ⟨m, rfl⟩ : ∃ m, n = m + 1 := by
      cases n with
      | zero => exact absurd hi (Nat.not_lt_zero _)
      | succ m => exact ⟨m, rfl⟩
    rw [List.range_succ_eq_map, List.map_cons]
    unfold runPolls
    rw [hf]
  | succ i ih =>
    obtain ⟨m, rfl⟩ : ∃ m, n = m + 1 := by
      cases n with
      | zero => exact absurd hi (Nat.not_lt_zero _)
      | succ m => exact ⟨m, rfl⟩
    rw [List.range_succ_eq_map, List.map_cons]
    unfold runPolls
    rw [hb 0 (Nat.succ_pos i), List.map_map]
    exact ih (fun k => obsAt (Nat.succ k)) m (Nat.lt_of_succ_lt_succ hi)
      (fun j hj => hb (j + 1) (Nat.succ_lt_succ hj)) hf

/-- `_add_url` never empties the channel. -/
theorem _add_url_ne_nil (s : List String) (u : String) : _add_url s u ≠ [] := by
  unfold _add_url
  split
  · intro h
    subst h
    simp_all
  · simp

/-- `_add_url` preserves the head of a nonempty channel. -/
theorem _add_url_head (s : List String) (u : String) (h : s ≠ []) :
    (_add_url s u).head? = s.head? := by
  unfold _add_url
  split
  · rfl
  · cases s with
    | nil => exact absurd rfl h
    | cons a t => rfl

/-- Folding further writes over a nonempty channel preserves its head. -/
theorem foldl_add_url_head (ws : List String) (s : List String) (h : s ≠ []) :
    (ws.foldl _add_url s).head? = s.head? := by
  induction ws generalizing s with
  | nil => rfl
  | cons w rest ih =>
    rw [List.foldl_cons, ih (_add_url s w) (_add_url_ne_nil s w), _add_url_head s w h]

/-!  ## The claims -/

/-- Claim C1 (refuted by the code, which contradicts its own client): the claim
says every authorization-interrupt result text begins with the sentinel
`__AUTH_REQUIRED__` followed by the URL.  In fact `invoke` returns the
`AuthRequiredException` message verbatim, which begins with
`🔒 **GitHub Authorization Required**` and never with the sentinel, so the
client's `render_response` takes its ordinary-text branch on it. -/
theorem claim_C1_auth_result_lacks_sentinel :
    invoke ⟨some (.str "chat"), some (.str "fetch my github profile")⟩
        (.raised (.authRequired (authMsg "https://bedrock-agentcore.x/a")))
      = mkResult (authMsg "https://bedrock-agentcore.x/a")
    ∧ (authMsg "https://bedrock-agentcore.x/a").startsWith AUTH_SENTINEL = false
    ∧ render_response (authMsg "https://bedrock-agentcore.x/a")
      = authMsg "https://bedrock-agentcore.x/a" :=
  ⟨rfl, by decide, rfl⟩

/-- Claim C3 (refuted by the code): the claim says the decoder never raises for
any well-formed event sequence, including ones whose concatenated text is
arbitrary valid JSON.  A single event decoding to `[1, 2]` (valid JSON, not an
object) makes `data.get` raise an uncaught `AttributeError`. -/
theorem claim_C3_decoder_raises_on_json_array :
    parse_agent_response [.raw "[1, 2]"] false = .error (.attributeError "list") :=
  rfl

/-- Claim C4 (refuted by the code): the claim says a concatenation that does
not parse as a JSON object with a `result` key is returned verbatim.  The
concatenation `42` is valid JSON but not an object, and instead of returning
`"42"` the decoder raises an uncaught `AttributeError`. -/
theorem claim_C4_nonobject_json_not_verbatim :
    parse_agent_response [.chunk "42"] false = .error (.attributeError "int")
    ∧ parse_agent_response [.chunk "42"] false ≠ .ok (.str "42") :=
  ⟨rfl, fun h => Except.noConfusion h⟩

/-- Claim C2, counterexample: the run in which the bound elapses with no token
and no URL raises `AuthRequiredException` (the timeout message), and the run
in which a URL is found raises `AuthRequiredException` too — the same fault
type, not a different variant as the claim requires. -/
theorem claim_C2_counterexample :
    _call_github_with_timeout 25 (fun _ => ⟨none, []⟩) [] "" ""
      = .error (.authRequired (timeoutMsg "" "" []))
    ∧ _call_github_with_timeout 25 (fun _ => ⟨none, ["https://bedrock-agentcore.x/a"]⟩) [] "" ""
      = .error (.authRequired (authMsg "https://bedrock-agentcore.x/a")) :=
  ⟨rfl, rfl⟩

/-- Claim C2 as amended: when the bound elapses with no thread result and no
URL in any channel, the Acquirer raises the *same* fault type used for the
authorization interrupt (`AuthRequiredException`), distinguishable only by its
message text, which begins with the timed-out header (first character `⚠`)
rather than the authorization header (first character `🔒`). -/
theorem claim_C2_timeout_same_fault_type (t : Nat) (obsAt : Nat → PollObs)
    (so se : String) (h : ∀ i, i < iterCount t → obsAt i = ⟨none, []⟩) :
    _call_github_with_timeout t obsAt [] so se
      = .error (.authRequired (timeoutMsg so se []))
    ∧ (timeoutMsg so se []).data.head? = some '⚠'
    ∧ (∀ u, (authMsg u).data.head? = some '🔒')
    ∧ (∀ u, timeoutMsg so se [] ≠ authMsg u) := by
  have hto : (timeoutMsg so se []).data.head? = some '⚠' := by
    unfold timeoutMsg
    exact strHeadAppend _ _ _ (strHeadAppend _ _ _ (strHeadAppend _ _ _ (strHeadAppend _ _ _
      (strHeadAppend _ _ _ (strHeadAppend _ _ _ (strHeadAppend _ _ _
        (strHeadAppend _ _ _ rfl)))))))
  have hau : ∀ u, (authMsg u).data.head? = some '🔒' := by
    intro u
    unfold authMsg
    exact strHeadAppend _ _ _ (strHeadAppend _ _ _ (strHeadAppend _ _ _ rfl))
  refine ⟨?_, hto, hau, ?_⟩
  · have hrun : runPolls ((List.range (iterCount t)).map obsAt) = none := by
      apply runPolls_eq_none
      intro o ho
      obtain ⟨i, hi, rfl⟩ := List.mem_map.mp ho
      rw [h i (List.mem_range.mp hi)]
      rfl
    unfold _call_github_with_timeout
    rw [hrun]
  · intro u heq
    have h2 : (timeoutMsg so se []).data.head? = (authMsg u).data.head? := by rw [heq]
    rw [hto, hau u] at h2
    exact (by decide : ('⚠' : Char) ≠ '🔒') (Option.some.inj h2)

/-- Witness for the amended C2 at a concrete run. -/
theorem claim_C2_timeout_same_fault_type_witness :
    _call_github_with_timeout 25 (fun _ => ⟨none, []⟩) [] "out" "err"
      = .error (.authRequired (timeoutMsg "out" "err" []))
    ∧ timeoutMsg "out" "err" [] ≠ authMsg "https://bedrock-agentcore.x/a" := by
  obtain ⟨h1, _, _, h4⟩ :=
    claim_C2_timeout_same_fault_type 25 (fun _ => ⟨none, []⟩) "out" "err"
      (fun i _ => rfl)
  exact ⟨h1, h4 "https://bedrock-agentcore.x/a"⟩

/-- Claim C5 (confirmed): whenever the worker finishes with an error whose
text yields an authorization URL (and no earlier iteration already settled the
call), the Acquirer raises `AuthRequiredException` carrying exactly that URL —
not the original error. -/
theorem claim_C5_error_url_becomes_auth_interrupt
    (t : Nat) (obsAt : Nat → PollObs) (i : Nat) (hi : i < iterCount t)
    (hb : ∀ j, j < i → processPoll (obsAt j) = none)
    (e : PyExn) (us fin : List String) (so se : String) (url : String)
    (hq : obsAt i = ⟨some (.err e), us⟩)
    (hurl : _extract_auth_url (pyExnStr e) = some url) :
    _call_github_with_timeout t obsAt fin so se
      = .error (.authRequired (authMsg url)) := by
  have hf : processPoll (obsAt i) = some (.error (.authRequired (authMsg url))) := by
    rw [hq]
    unfold processPoll
    simp only
    rw [hurl]
  unfold _call_github_with_timeout
  rw [runPolls_fires obsAt (iterCount t) i hi hb _ hf]

/-- Witness for C5: a worker error mentioning an AgentCore URL at the first
iteration is classified as an authorization interrupt around that URL. -/
theorem claim_C5_witness :
    _call_github_with_timeout 25
      (fun _ => ⟨some (.err (.other "visit https://bedrock-agentcore.x/cb now")), []⟩)
      [] "" ""
      = .error (.authRequired (authMsg "https://bedrock-agentcore.x/cb")) :=
  claim_C5_error_url_becomes_auth_interrupt 25
    (fun _ => ⟨some (.err (.other "visit https://bedrock-agentcore.x/cb now")), []⟩)
    0 (by decide) (fun j hj => absurd hj (Nat.not_lt_zero j))
    (.other "visit https://bedrock-agentcore.x/cb now") [] [] "" ""
    "https://bedrock-agentcore.x/cb" rfl rfl

/-- Claim C6 (confirmed): for every payload and graph outcome the entrypoint
returns a `{"result": string}` envelope (no fault escapes); the tool wrapper
re-raises `AuthRequiredException` unmodified; and on a non-warmup payload an
`AuthRequiredException` surfacing from the graph is mapped to the
authorization-required result (its own message), not to the backend-error
shape.  The LangGraph reasoning graph itself is an external collaborator,
modelled by the opaque `GraphOutcome` it hands back to `invoke`. -/
theorem claim_C6_orchestrator_shapes_and_auth_passthrough
    (p : Payload) (g : GraphOutcome) (m : String) :
    (∃ s, invoke p g = mkResult s)
    ∧ fetch_github_profile (.error (.authRequired m)) = .error (.authRequired m)
    ∧ (isWarmupPayload p = false →
        invoke p (.raised (.authRequired m)) = mkResult m) := by
  refine ⟨?_, rfl, ?_⟩
  · unfold invoke
    split
    · exact ⟨_, rfl⟩
    · cases g with
      | finished c => exact ⟨c, rfl⟩
      | raised e =>
        cases e with
        | authRequired m' => exact ⟨m', rfl⟩
        | attributeError t =>
          simp only
          cases _extract_auth_url (pyExnStr (.attributeError t)) with
          | none => exact ⟨_, rfl⟩
          | some u => exact ⟨_, rfl⟩
        | keyError k =>
          simp only
          cases _extract_auth_url (pyExnStr (.keyError k)) with
          | none => exact ⟨_, rfl⟩
          | some u => exact ⟨_, rfl⟩
        | typeError t =>
          simp only
          cases _extract_auth_url (pyExnStr (.typeError t)) with
          | none => exact ⟨_, rfl⟩
          | some u => exact ⟨_, rfl⟩
        | jsonDecodeError d =>
          simp only
          cases _extract_auth_url (pyExnStr (.jsonDecodeError d)) with
          | none => exact ⟨_, rfl⟩
          | some u => exact ⟨_, rfl⟩
        | other msg =>
          simp only
          cases _extract_auth_url (pyExnStr (.other msg)) with
          | none => exact ⟨_, rfl⟩
          | some u => exact ⟨_, rfl⟩
  · intro hw
    unfold invoke
    rw [if_neg (by rw [hw]; exact Bool.false_ne_true)]

/-- Witness for C6 at a concrete non-warmup payload. -/
theorem claim_C6_witness :
    (∃ s, invoke ⟨some (.str "chat"), some (.str "hi")⟩ (.finished "all good")
      = mkResult s)
    ∧ invoke ⟨some (.str "chat"), some (.str "hi")⟩
        (.raised (.authRequired "need auth")) = mkResult "need auth" := by
  obtain ⟨h1, _, h3⟩ := claim_C6_orchestrator_shapes_and_auth_passthrough
    ⟨some (.str "chat"), some (.str "hi")⟩ (.finished "all good") "need auth"
  exact ⟨h1, h3 rfl⟩

/-- Claim C7 (confirmed): a stream fault after at least one decoded event
leaves the result exactly what the decoder computes from the prefix decoded so
far (identical to a fault-free run over that prefix), and a fault before
anything was decoded yields the distinguishable "Stream read error" result
instead of a propagated fault. -/
theorem claim_C7_stream_fault_keeps_decoded (events : List StreamEvent) :
    (events ≠ [] →
      parse_agent_response events true = parse_agent_response events false)
    ∧ parse_agent_response [] true = .ok (.str "Stream read error") := by
  constructor
  · intro h
    unfold parse_agent_response
    have he : (events.map eventText).isEmpty = false := by
      cases events with
      | nil => exact absurd rfl h
      | cons e t => rfl
    simp only [he, Bool.true_and, Bool.false_and]
  · rfl

/-- Witness for C7 at a one-event stream. -/
theorem claim_C7_witness :
    parse_agent_response [.chunk "hello"] true
      = parse_agent_response [.chunk "hello"] false
    ∧ parse_agent_response [] true = .ok (.str "Stream read error") :=
  ⟨(claim_C7_stream_fault_keeps_decoded [.chunk "hello"]).1 (by simp),
   (claim_C7_stream_fault_keeps_decoded []).2⟩

/-- Claim C8 (confirmed): a payload whose `type` field equals `"warmup"` gets
the fixed acknowledgement, and the answer does not depend on the graph outcome
at all (the reasoning graph, token acquirer and tool are never consulted). -/
theorem claim_C8_warmup_fast_path (p : Payload) (g g' : GraphOutcome)
    (h : p.type = some (.str "warmup")) :
    invoke p g = mkResult "Agent is warm and ready."
    ∧ invoke p g = invoke p g' := by
  have hw : isWarmupPayload p = true := by
    unfold isWarmupPayload
    rw [h]
    rfl
  unfold invoke
  rw [hw]
  exact ⟨rfl, rfl⟩

/-- Witness for C8 at a concrete warmup payload. -/
theorem claim_C8_warmup_fast_path_witness :
    invoke ⟨some (.str "warmup"), none⟩ (.finished "x")
      = mkResult "Agent is warm and ready."
    ∧ invoke ⟨some (.str "warmup"), none⟩ (.finished "x")
      = invoke ⟨some (.str "warmup"), none⟩ (.raised (.other "boom")) :=
  claim_C8_warmup_fast_path ⟨some (.str "warmup"), none⟩ (.finished "x")
    (.raised (.other "boom")) rfl

/-- Claim C9, counterexample: with a 200 profile response and a 500 repos
response (body "boom"), the returned string is identical to the one produced
when the repos call succeeds with an empty list — the non-200 from
`GET /user/repos` leaves no textual trace (neither "boom" nor "500" occurs in
the output), so it is not surfaced as a textual error. -/
theorem claim_C9_counterexample :
    _get_github_data ⟨200, "\x7b\"login\": \"octo\"\x7d"⟩ ⟨500, "boom"⟩
      = _get_github_data ⟨200, "\x7b\"login\": \"octo\"\x7d"⟩ ⟨200, "[]"⟩
    ∧ _get_github_data ⟨200, "\x7b\"login\": \"octo\"\x7d"⟩ ⟨500, "boom"⟩
      = .ok ("**GitHub Profile:** octo (N/A)\n**Bio:** N/A\n**Followers:** None | **Following:** None\n**Public Repos:** None\n**Top Languages:** N/A\n\n**Recently Active Repos:**\n")
    ∧ listHasSub ("**GitHub Profile:** octo (N/A)\n**Bio:** N/A\n**Followers:** None | **Following:** None\n**Public Repos:** None\n**Top Languages:** N/A\n\n**Recently Active Repos:**\n").toList "boom".toList = false
    ∧ listHasSub ("**GitHub Profile:** octo (N/A)\n**Bio:** N/A\n**Followers:** None | **Following:** None\n**Public Repos:** None\n**Top Languages:** N/A\n\n**Recently Active Repos:**\n").toList "500".toList = false :=
  ⟨rfl, rfl, rfl, rfl⟩

/-- Claim C9 as amended: a non-200 from `GET /user` is surfaced as a textual
error in the returned string (no exception), while a non-200 from
`GET /user/repos` is silently absorbed: the result is exactly the result of a
successful repos call returning the empty list. -/
theorem claim_C9_profile_error_text_repos_silent
    (profileResp reposResp goodEmpty : HttpResp)
    (hr : reposResp.status ≠ 200) (hg : goodEmpty.status = 200)
    (hgt : goodEmpty.text = "[]") :
    _get_github_data profileResp reposResp = _get_github_data profileResp goodEmpty
    ∧ (profileResp.status ≠ 200 →
        _get_github_data profileResp reposResp
          = .ok ("Error fetching profile: " ++ profileResp.text)) := by
  have h1 : reposValue reposResp = .ok (.arr []) := by
    unfold reposValue
    rw [if_neg hr]
  have h2 : reposValue goodEmpty = .ok (.arr []) := by
    unfold reposValue
    rw [if_pos hg]
    unfold respJson
    rw [hgt]
    rfl
  constructor
  · unfold _get_github_data
    rw [h1, h2]
  · intro hp
    unfold _get_github_data
    rw [if_pos hp]

/-- Witness for the amended C9 at concrete responses. -/
theorem claim_C9_profile_error_text_repos_silent_witness :
    _get_github_data ⟨404, "nf"⟩ ⟨500, "oops"⟩
      = _get_github_data ⟨404, "nf"⟩ ⟨200, "[]"⟩
    ∧ _get_github_data ⟨404, "nf"⟩ ⟨500, "oops"⟩
      = .ok ("Error fetching profile: " ++ "nf") := by
  obtain ⟨h1, h2⟩ := claim_C9_profile_error_text_repos_silent
    ⟨404, "nf"⟩ ⟨500, "oops"⟩ ⟨200, "[]"⟩ (by decide) rfl rfl
  exact ⟨h1, h2 (by decide)⟩

/-- Claim C10, counterexample: an interrupt need not report the first URL
captured in the channel.  In this run the channel was written once (first and
only distinct captured URL `….a/x`), but the worker's error text contains a
different URL `….b/x`; the queue is checked before the channel, so the
interrupt reports `….b/x`, not the first captured URL. -/
theorem claim_C10_counterexample :
    _call_github_with_timeout 25
      (fun _ => ⟨some (.err (.other ("OAuth error: " ++ "https://bedrock-agentcore.b/x"))),
                 (["https://bedrock-agentcore.a/x"]).foldl _add_url []⟩)
      ((["https://bedrock-agentcore.a/x"]).foldl _add_url []) "" ""
      = .error (.authRequired (authMsg "https://bedrock-agentcore.b/x"))
    ∧ ((["https://bedrock-agentcore.a/x"]).foldl _add_url []).head?
      = some "https://bedrock-agentcore.a/x"
    ∧ ("https://bedrock-agentcore.b/x" : String) ≠ "https://bedrock-agentcore.a/x" :=
  ⟨rfl, rfl, by decide⟩

/-- Claim C10 as amended: the *channel itself* is first-writer-wins — starting
from the cleared channel, after any nonempty write sequence (and any further
writes) the head of the channel is the first URL written; a duplicate write
leaves the channel unchanged; and an interrupt raised from the channel (queue
empty at that iteration) reports exactly that first written URL.  (An
interrupt raised from the worker's error text may instead carry the URL
extracted from that text, as the counterexample shows.) -/
theorem claim_C10_channel_first_writer_wins (w u : String)
    (ws extra : List String) (t : Nat) (obsAt : Nat → PollObs)
    (fin : List String) (so se : String) (ht : 0 < iterCount t)
    (h0 : obsAt 0 = ⟨none, ((w :: ws) ++ extra).foldl _add_url []⟩) :
    (((w :: ws) ++ extra).foldl _add_url []).head? = some w
    ∧ (∀ s, u ∈ s → _add_url s u = s)
    ∧ _call_github_with_timeout t obsAt fin so se
      = .error (.authRequired (authMsg w)) := by
  have hhead : (((w :: ws) ++ extra).foldl _add_url []).head? = some w := by
    rw [List.cons_append, List.foldl_cons]
    have ha : _add_url [] w = [w] := rfl
    rw [ha, foldl_add_url_head (ws ++ extra) [w] (by simp)]
    rfl
  refine ⟨hhead, fun s hu => ?_, ?_⟩
  · unfold _add_url
    rw [if_pos hu]
  · obtain ⟨tl, htl⟩ : ∃ tl, ((w :: ws) ++ extra).foldl _add_url [] = w :: tl := by
      cases hc : ((w :: ws) ++ extra).foldl _add_url [] with
      | nil => rw [hc] at hhead; exact absurd hhead (by simp)
      | cons a tl =>
        rw [hc] at hhead
        simp only [List.head?_cons, Option.some.injEq] at hhead
        exact ⟨tl, by rw [hhead]⟩
    have hf : processPoll (obsAt 0) = some (.error (.authRequired (authMsg w))) := by
      rw [h0, htl]
      rfl
    unfold _call_github_with_timeout
    rw [runPolls_fires obsAt (iterCount t) 0 ht
      (fun j hj => absurd hj (Nat.not_lt_zero j)) _ hf]

/-- Witness for the amended C10: channel writes `u1`, then `u2`; a duplicate
write of `u1` is a no-op and the channel-driven interrupt reports `u1`. -/
theorem claim_C10_channel_first_writer_wins_witness :
    ((["u1", "u2"]).foldl _add_url []).head? = some "u1"
    ∧ _add_url ["u1", "u2"] "u1" = ["u1", "u2"]
    ∧ _call_github_with_timeout 25
        (fun _ => ⟨none, (["u1", "u2"]).foldl _add_url []⟩) [] "" ""
      = .error (.authRequired (authMsg "u1")) := by
  obtain ⟨h1, h2, h3⟩ := claim_C10_channel_first_writer_wins "u1" "u1" [] ["u2"] 25
    (fun _ => ⟨none, (["u1", "u2"]).foldl _add_url []⟩) [] "" "" (by decide) rfl
  exact ⟨h1, h2 ["u1", "u2"] (by simp), h3⟩
